import Mathlib

/-!
Verification of the `ensure_simd` crate (src/lib.rs): a shallow embedding of
its build-time capability gate (`compile_error!` under a `cfg` predicate) and
its run-time capability probe (`ensure_simd`), together with proofs of the
specified properties.
-/

set_option maxRecDepth 100000

namespace EnsureSimd

/-- The compile-time configuration flags the crate's `cfg` predicates read:
`doc` (documentation build), `debug_assertions` (debug build),
`avx2` (`target_feature = "avx2"`), `neon` (`target_feature = "neon"`),
and `scalar` (the crate's `scalar` cargo feature, the opt-out flag). -/
structure BuildConfig where
  doc : Bool
  debug_assertions : Bool
  avx2 : Bool
  neon : Bool
  scalar : Bool
deriving DecidableEq, Repr

/-- The gate predicate from src/lib.rs lines 20-26: `compile_error!` fires
under `cfg(not(any(doc, debug_assertions, target_feature = "avx2",
target_feature = "neon", feature = "scalar")))`, so the build passes exactly
when the disjunction holds. -/
def gatePasses (c : BuildConfig) : Bool :=
  c.doc || c.debug_assertions || c.avx2 || c.neon || c.scalar

/-- The exact message of the `compile_error!` invocation (src/lib.rs lines 27-34). -/
def compileErrorMsg : String :=
  "\nThe tool you are trying to build uses AVX2 (on x64) or NEON (on aarch64) SIMD instructions for performance.\nUnfortunately, AVX2 is not enabled by default on x64.\nTo get the expected performance, compile/install using e.g.:\nRUSTFLAGS=\"-C target-cpu=native\" cargo ...\nAlternatively, silence this error by activating the `scalar` feature (eg `cargo install -F scalar ...`).\nSee the readme at https://github.com/ragnargrootkoerkamp/ensure_simd for details."

/-- Build-time behaviour: `none` means compilation proceeds and an artifact is
produced; `some msg` means a hard compilation error with message `msg` and no
artifact. -/
def buildOutcome (c : BuildConfig) : Option String :=
  if gatePasses c then none else some compileErrorMsg

/-- The observable effect of one `ensure_simd` call: whether the
`is_x86_feature_detected!("avx2")` CPU query ran, the strings written to
stdout and stderr, and the exit code when the call terminates the process. -/
structure ProbeEffect where
  cpuQueried : Bool
  stdout : List String
  stderr : List String
  exitCode : Option Nat
deriving DecidableEq, Repr

/-- The exact diagnostic `ensure_simd` passes to `eprintln!`
(src/lib.rs lines 45-52), plus the newline `eprintln!` appends. -/
def runtimeDiagnostic : String :=
  "\nThis binary was compiled with AVX2 instructions enabled, but your CPU does not support this.\nPlease run on a CPU that supports AVX2, or build from source with the `-F scalar` feature enabled.\nSee the readme at https://github.com/ragnargrootkoerkamp/ensure_simd for details.\n\n"

/-- Shallow embedding of `pub fn ensure_simd()` (src/lib.rs lines 41-55).
The body is present only under `cfg(target_feature = "avx2")`; when compiled
in, it queries the CPU (`cpuHasAvx2` is the query's result) and on a negative
answer writes the diagnostic to stderr and calls `std::process::exit(1)`. -/
def ensure_simd (c : BuildConfig) (cpuHasAvx2 : Bool) : ProbeEffect :=
  if c.avx2 then
    if !cpuHasAvx2 then
      { cpuQueried := true, stdout := [], stderr := [runtimeDiagnostic],
        exitCode := some 1 }
    else
      { cpuQueried := true, stdout := [], stderr := [], exitCode := none }
  else
    { cpuQueried := false, stdout := [], stderr := [], exitCode := none }

/-- Process state while the embedding program runs: still executing, or
terminated by `std::process::exit` with the given code. -/
inductive ProcState
  | running
  | exited (code : Nat)
deriving DecidableEq, Repr

/-- Sequential execution of `n` consecutive `ensure_simd` calls in one
process: a call only executes (and only contributes its effect) while the
process is still running; `std::process::exit` makes every later call
unreachable. Returns the final state and the list of effects of the calls
that actually executed. -/
def runCalls (c : BuildConfig) (cpuHasAvx2 : Bool) :
    Nat → ProcState → ProcState × List ProbeEffect
  | 0, s => (s, [])
  | _ + 1, ProcState.exited k => (ProcState.exited k, [])
  | n + 1, ProcState.running =>
      let e := ensure_simd c cpuHasAvx2
      match e.exitCode with
      | some k => (ProcState.exited k, [e])
      | none =>
          let r := runCalls c cpuHasAvx2 n ProcState.running
          (r.1, e :: r.2)

/-- Naive substring search on character lists: `listContains pat text` is
`true` iff `pat` occurs contiguously in `text`. -/
def listContains (pat : List Char) : List Char → Bool
  | [] => pat.isEmpty
  | ch :: rest => pat.isPrefixOf (ch :: rest) || listContains pat rest

/-- String containment via `listContains` on the underlying character lists. -/
def mentions (text pat : String) : Bool :=
  listContains pat.data text.data

end EnsureSimd

namespace EnsureSimd

/-- Claim C1: the build-time gate passes (compilation proceeds, `buildOutcome`
is `none`) iff at least one of the five flags holds, and when all five are
false the gate raises a hard compilation error (`buildOutcome` is `some`
message, no artifact). -/
theorem gate_passes_iff_any_flag (c : BuildConfig) :
    (buildOutcome c = none ↔
      (c.doc = true ∨ c.debug_assertions = true ∨ c.avx2 = true ∨
        c.neon = true ∨ c.scalar = true)) ∧
    (c.doc = false ∧ c.debug_assertions = false ∧ c.avx2 = false ∧
        c.neon = false ∧ c.scalar = false →
      buildOutcome c = some compileErrorMsg) := by
  obtain ⟨d, g, a, n, s⟩ := c
  constructor
  · simp [buildOutcome, gatePasses]
    cases d <;> cases g <;> cases a <;> cases n <;> cases s <;> simp
  · rintro ⟨rfl, rfl, rfl, rfl, rfl⟩
    rfl

/-- Claim C2: in a binary compiled with AVX2 enabled, when the run-time CPU
feature query reports AVX2 absent, `ensure_simd` writes the fixed multi-line
diagnostic (it holds several newline characters) to stderr, nothing to
stdout, and terminates the process with exit status exactly 1. -/
theorem ensure_simd_avx2_absent (c : BuildConfig) (h : c.avx2 = true) :
    ensure_simd c false =
      { cpuQueried := true, stdout := [], stderr := [runtimeDiagnostic],
        exitCode := some 1 } ∧
    2 ≤ runtimeDiagnostic.data.count '\n' := by
  refine ⟨?_, by decide⟩
  simp [ensure_simd, h]

/-- Witness for C2 at a concrete AVX2-enabled configuration. -/
theorem ensure_simd_avx2_absent_witness :
    ensure_simd ⟨false, false, true, false, false⟩ false =
      { cpuQueried := true, stdout := [], stderr := [runtimeDiagnostic],
        exitCode := some 1 } ∧
    2 ≤ runtimeDiagnostic.data.count '\n' :=
  ensure_simd_avx2_absent ⟨false, false, true, false, false⟩ rfl

/-- Claim C3: in a binary compiled with AVX2 enabled, when the run-time CPU
feature query reports AVX2 present, `ensure_simd` returns normally: no stdout,
no stderr, and no process termination. -/
theorem ensure_simd_avx2_present (c : BuildConfig) (h : c.avx2 = true) :
    (ensure_simd c true).stdout = [] ∧ (ensure_simd c true).stderr = [] ∧
    (ensure_simd c true).exitCode = none := by
  simp [ensure_simd, h]

/-- Witness for C3 at a concrete AVX2-enabled configuration. -/
theorem ensure_simd_avx2_present_witness :
    (ensure_simd ⟨false, false, true, false, false⟩ true).stdout = [] ∧
    (ensure_simd ⟨false, false, true, false, false⟩ true).stderr = [] ∧
    (ensure_simd ⟨false, false, true, false, false⟩ true).exitCode = none :=
  ensure_simd_avx2_present ⟨false, false, true, false, false⟩ rfl

/-- Claim C4: in a binary compiled without AVX2 enabled, `ensure_simd`
returns immediately with no observable effect — no CPU feature query, no
output, no termination — whatever the executing CPU reports. -/
theorem ensure_simd_no_avx2 (c : BuildConfig) (h : c.avx2 = false)
    (cpuHasAvx2 : Bool) :
    ensure_simd c cpuHasAvx2 =
      { cpuQueried := false, stdout := [], stderr := [], exitCode := none } := by
  simp [ensure_simd, h]

/-- Witness for C4 at a concrete NEON (aarch64) configuration. -/
theorem ensure_simd_no_avx2_witness :
    ensure_simd ⟨false, false, false, true, false⟩ false =
      { cpuQueried := false, stdout := [], stderr := [], exitCode := none } :=
  ensure_simd_no_avx2 ⟨false, false, false, true, false⟩ rfl false

/-- Claim C5: `ensure_simd` is idempotent. For a fixed configuration and a
fixed CPU-feature query result, two consecutive calls either both return
normally with identical effects, or the first call exits the process with
some code `k` and the second call is unreachable (it contributes no effect
and the process stays exited with `k`). -/
theorem ensure_simd_idempotent (c : BuildConfig) (cpuHasAvx2 : Bool) :
    ((ensure_simd c cpuHasAvx2).exitCode = none ∧
      runCalls c cpuHasAvx2 2 ProcState.running =
        (ProcState.running, [ensure_simd c cpuHasAvx2, ensure_simd c cpuHasAvx2])) ∨
    (∃ k, (ensure_simd c cpuHasAvx2).exitCode = some k ∧
      runCalls c cpuHasAvx2 2 ProcState.running =
        (ProcState.exited k, [ensure_simd c cpuHasAvx2])) := by
  obtain ⟨d, g, a, n, s⟩ := c
  cases a <;> cases cpuHasAvx2 <;>
    simp [ensure_simd, runCalls]

/-- Claim C6: whenever the build-time gate fails, the compilation error is
the fixed message, and that message mentions the native code-generation
remedy (`RUSTFLAGS="-C target-cpu=native"`), the scalar opt-out remedy
(activating the `scalar` feature), and the reference link to the readme. -/
theorem gate_failure_message (c : BuildConfig) (h : gatePasses c = false) :
    buildOutcome c = some compileErrorMsg ∧
    mentions compileErrorMsg "RUSTFLAGS=\"-C target-cpu=native\"" = true ∧
    mentions compileErrorMsg "activating the `scalar` feature" = true ∧
    mentions compileErrorMsg
      "https://github.com/ragnargrootkoerkamp/ensure_simd" = true := by
  refine ⟨?_, by decide, by decide, by decide⟩
  simp [buildOutcome, h]

/-- Witness for C6 at the all-flags-false configuration. -/
theorem gate_failure_message_witness :
    buildOutcome ⟨false, false, false, false, false⟩ = some compileErrorMsg ∧
    mentions compileErrorMsg "RUSTFLAGS=\"-C target-cpu=native\"" = true ∧
    mentions compileErrorMsg "activating the `scalar` feature" = true ∧
    mentions compileErrorMsg
      "https://github.com/ragnargrootkoerkamp/ensure_simd" = true :=
  gate_failure_message ⟨false, false, false, false, false⟩ rfl

/-- Claim C7: the run-time check is never silently skipped when its
precondition holds: in every AVX2-enabled compilation, every `ensure_simd`
call performs the CPU feature query, whatever the query will answer. -/
theorem ensure_simd_always_queries (c : BuildConfig) (h : c.avx2 = true)
    (cpuHasAvx2 : Bool) :
    (ensure_simd c cpuHasAvx2).cpuQueried = true := by
  cases cpuHasAvx2 <;> simp [ensure_simd, h]

/-- Witness for C7 at a concrete AVX2-enabled configuration. -/
theorem ensure_simd_always_queries_witness :
    (ensure_simd ⟨false, false, true, false, false⟩ false).cpuQueried = true :=
  ensure_simd_always_queries ⟨false, false, true, false, false⟩ rfl false

/-- Claim C8: the scalar opt-out suppresses only the build-time gate. In a
binary compiled with both the `scalar` feature and AVX2 enabled, the gate
passes, `ensure_simd` still performs the CPU feature query on every call,
and it still writes the diagnostic and exits with status 1 when the query
reports AVX2 absent. -/
theorem scalar_does_not_disable_probe (c : BuildConfig)
    (hs : c.scalar = true) (ha : c.avx2 = true) :
    gatePasses c = true ∧
    (∀ cpuHasAvx2 : Bool, (ensure_simd c cpuHasAvx2).cpuQueried = true) ∧
    (ensure_simd c false).stderr = [runtimeDiagnostic] ∧
    (ensure_simd c false).exitCode = some 1 := by
  refine ⟨?_, fun b => by cases b <;> simp [ensure_simd, ha], ?_, ?_⟩ <;>
    simp [gatePasses, ensure_simd, hs, ha]

/-- Witness for C8 at the configuration with `scalar` and AVX2 both enabled. -/
theorem scalar_does_not_disable_probe_witness :
    gatePasses ⟨false, false, true, false, true⟩ = true ∧
    (∀ cpuHasAvx2 : Bool,
      (ensure_simd ⟨false, false, true, false, true⟩ cpuHasAvx2).cpuQueried = true) ∧
    (ensure_simd ⟨false, false, true, false, true⟩ false).stderr = [runtimeDiagnostic] ∧
    (ensure_simd ⟨false, false, true, false, true⟩ false).exitCode = some 1 :=
  scalar_does_not_disable_probe ⟨false, false, true, false, true⟩ rfl rfl

/-- Claim C9: `ensure_simd` never writes to stdout, and its only possible
output in any configuration and for any query result is the single
diagnostic on stderr in the branch that exits with status 1. -/
theorem ensure_simd_frame (c : BuildConfig) (cpuHasAvx2 : Bool) :
    (ensure_simd c cpuHasAvx2).stdout = [] ∧
    ((ensure_simd c cpuHasAvx2).stderr = [] ∨
      ((ensure_simd c cpuHasAvx2).stderr = [runtimeDiagnostic] ∧
        (ensure_simd c cpuHasAvx2).exitCode = some 1)) := by
  obtain ⟨d, g, a, n, s⟩ := c
  cases a <;> cases cpuHasAvx2 <;> simp [ensure_simd]

/-- Claim C10: `ensure_simd` is total: for every configuration and every
CPU feature-query result it either returns normally (no exit code) or
invokes process exit with status 1; no other control path exists. -/
theorem ensure_simd_total (c : BuildConfig) (cpuHasAvx2 : Bool) :
    (ensure_simd c cpuHasAvx2).exitCode = none ∨
    (ensure_simd c cpuHasAvx2).exitCode = some 1 := by
  obtain ⟨d, g, a, n, s⟩ := c
  cases a <;> cases cpuHasAvx2 <;> simp [ensure_simd]

end EnsureSimd
